import Mathlib

/-!
Verification development for the WLED Home Assistant integration.

The definitions below are a shallow embedding of the resilient
device-polling and command-dispatch client of the repository:

* `custom_components/wled_jsonapi/api.py` — the JSON-API client
  (`WLEDJSONAPIClient`): response handling, essential-field extraction,
  the simple (compatibility-mode) retry loop and the enhanced
  (standard-mode) request path, `update_state`, `get_full_state`,
  `get_presets`, `set_effect`;
* `custom_components/wled_jsonapi/models.py` — preset/playlist parsing
  (`WLEDPresetsData.from_dict` and friends);
* `custom_components/wled_jsonapi/coordinator.py` — the poll
  coordinator (`_handle_error`, `_async_update_data`, command payload
  builders, the command validation gate);
* `custom_components/wled/api.py` and
  `custom_components/wled/coordinator.py` — the legacy client with the
  exponential-backoff retry loop and the legacy coordinator with the
  three-strikes availability counter.

Modelling conventions: JSON documents are an inductive `Json` type whose
objects are insertion-ordered association lists (Python dicts preserve
insertion order); exceptions are the inductive `WErr`, with one
constructor per relevant exception class of
`custom_components/wled_jsonapi/exceptions.py`, and Python
`isinstance` checks against the exception hierarchy become the family
predicates below.  `async`/`await` sequencing is modelled as plain
function application for genuinely asynchronous callees: the event
loop, timing, logging and the diagnostics side channel have no
observable effect on the values and exceptions the claims are about.
The one place where `await` is applied to something that is not
awaitable — `monitor_connection_during_operation` runs
`result = await async_func()` where `async_func` wraps the synchronous
`_validate_response_status`, whose `None` return makes the `await`
raise `TypeError` — is modelled faithfully: every reply whose status
passes validation raises a `WLEDConnectionLifecycleError` from that
`TypeError`, so the body-reading, JSON-parsing and field-extraction
stages of `_handle_response` are dead code and no request of the
JSON-API client ever returns a document.  Each HTTP attempt made by the
transport is abstracted as an `Attempt`: either a timeout, a
network-level failure, or a reply carrying a status code and a body
that is empty, malformed JSON, or a parsed JSON document.  Calls of the
transport are counted explicitly: every runner returns the number of
attempts it consumed together with the Python-level result
(`Except` models raised exceptions).
-/

namespace WLED

/-- JSON values.  Objects are insertion-ordered association lists,
matching the iteration and update order of Python dicts. -/
inductive Json where
  | null
  | bool (b : Bool)
  | num (n : Int)
  | str (s : String)
  | arr (elems : List Json)
  | obj (entries : List (String × Json))

/-- First-match key lookup in a JSON object body, i.e. Python `d.get(k)` /
`d[k]` on a dict (dicts have unique keys, so first match is the match). -/
def getKey : List (String × Json) → String → Option Json
  | [], _ => none
  | (k, v) :: rest, key => if k = key then some v else getKey rest key

/-- Python `k in d` on a dict. -/
def hasKey (kvs : List (String × Json)) (key : String) : Bool :=
  (getKey kvs key).isSome

/-- Python `d[k] = v` on a dict: replace in place if the key exists,
otherwise append in insertion order. -/
def setIntKey {α : Type} : List (Int × α) → Int → α → List (Int × α)
  | [], k, v => [(k, v)]
  | (k0, v0) :: rest, k, v =>
    if k0 = k then (k, v) :: rest else (k0, v0) :: setIntKey rest k v

/-- Python `str.isdigit()` restricted to ASCII digits (the only case the
device protocol produces): non-empty and all characters are digits. -/
def isDigitString (s : String) : Bool :=
  s.length > 0 && s.toList.all (fun c => c.isDigit)

/-- Python `int(s)` on a digit string. -/
def digitsToNat (s : String) : Nat :=
  s.toList.foldl (fun acc c => acc * 10 + (c.toNat - 48)) 0

/-- The exception taxonomy of
`custom_components/wled_jsonapi/exceptions.py`, restricted to the
classes the embedded code can raise or branch on.
`lifecycleAwaitError` is the `WLEDConnectionLifecycleError` that
`monitor_connection_during_operation` produces when
`await async_func()` is applied to the `None` returned by the
synchronous `_validate_response_status` (a `TypeError`, wrapped by the
wrapper's catch-all); `connectionWrap` records a generic
`WLEDConnectionError` wrapping an unexpected exception. -/
inductive WErr where
  | timeoutError
  | networkError
  | httpError (code : Nat)
  | lifecycleServerError (code : Nat)
  | lifecycleAwaitError
  | connectionWrap (cause : WErr)
  | invalidResponse
  | invalidJson
  | invalidState
  | commandError
  | invalidCommand
  | authentication
  | presetError
  deriving DecidableEq

/-- Python `isinstance(e, WLEDConnectionError)`: the hierarchy makes
`WLEDTimeoutError`, `WLEDNetworkError`, `WLEDHTTPError`,
`WLEDConnectionLifecycleError` and `WLEDSessionError` (and all their
subclasses) subclasses of `WLEDConnectionError`. -/
def isConnectionFamily : WErr → Bool
  | .timeoutError => true
  | .networkError => true
  | .httpError _ => true
  | .lifecycleServerError _ => true
  | .lifecycleAwaitError => true
  | .connectionWrap _ => true
  | _ => false

/-- Python `isinstance(e, (WLEDTimeoutError, WLEDNetworkError))`. -/
def isTimeoutOrNetwork : WErr → Bool
  | .timeoutError => true
  | .networkError => true
  | _ => false

/-- Python `isinstance(e, WLEDInvalidResponseError)`:
`WLEDInvalidJSONError` and `WLEDInvalidStateError` are its
subclasses. -/
def isInvalidResponseFamily : WErr → Bool
  | .invalidResponse => true
  | .invalidJson => true
  | .invalidState => true
  | _ => false

/-- Python `isinstance(e, WLEDCommandError)`: `WLEDInvalidCommandError`
is its subclass. -/
def isCommandFamily : WErr → Bool
  | .commandError => true
  | .invalidCommand => true
  | _ => false

/-- The body of an HTTP reply as seen by `_handle_response`: empty or
whitespace-only, non-empty but not valid JSON, or parsed JSON. -/
inductive Body where
  | empty
  | malformed
  | parsed (j : Json)

/-- One transport attempt (`_execute_http_request` plus reading the
body): a timeout (`WLEDTimeoutError` family), a network-level failure
(`WLEDNetworkError` family), or an HTTP reply with a status code and a
body. -/
inductive Attempt where
  | timeout
  | network
  | reply (status : Nat) (body : Body)

/-- Python `if k in d: out[k] = d[k]`, the copying step used throughout
`_extract_essential_state_fields`. -/
def optEntryJ (kvs : List (String × Json)) (k : String) : List (String × Json) :=
  match getKey kvs k with
  | some v => [(k, v)]
  | none => []

/-- The per-segment part of `_extract_essential_state_fields`: from the
first segment object take `on`, `bri` and `fx`, in that order, when
present. -/
def extract_seg_essential (fkvs : List (String × Json)) : List (String × Json) :=
  optEntryJ fkvs "on" ++ optEntryJ fkvs "bri" ++ optEntryJ fkvs "fx"

/-- `WLEDJSONAPIClient._extract_essential_state_fields`: keep only
`on`, `bri`, `ps`, `pl`, and — when `seg` is a non-empty list whose
first element is an object with at least one of `on`/`bri`/`fx` — a
single-element `seg` list holding those sub-keys. -/
def extract_essential_state_fields (kvs : List (String × Json)) : List (String × Json) :=
  optEntryJ kvs "on" ++ optEntryJ kvs "bri" ++ optEntryJ kvs "ps" ++ optEntryJ kvs "pl" ++
  (match getKey kvs "seg" with
   | some (.arr (first :: _)) =>
     match first with
     | .obj fkvs =>
       let segEss := extract_seg_essential fkvs
       if segEss.isEmpty then [] else [("seg", .arr [.obj segEss])]
     | _ => []
   | _ => [])

/-- `WLEDJSONAPIClient._handle_response` on a received reply.  In source
order: `_validate_connection_state` raises a
`WLEDConnectionLifecycleError` for any 5xx status; then status
validation runs as `monitor_connection_during_operation(response,
"status_validation", async_func=lambda: self._validate_response_status(...))`,
whose `result = await async_func()` first calls the synchronous
`_validate_response_status` — for any remaining status `>= 400` that
call raises `WLEDHTTPError` before the `await`, and the wrapper
re-raises it unchanged (`WLEDHTTPError` is a `WLEDConnectionError`) —
and otherwise reaches `await None`, whose `TypeError` the wrapper's
catch-all converts into a `WLEDConnectionLifecycleError`.  The reply
body is therefore never read: the empty-body check, the JSON parsing
and the essential-field extraction further down `_handle_response` are
dead code, and no reply ever produces a success value. -/
def handle_response (status : Nat) (_body : Body) : Except WErr Json :=
  if 500 ≤ status then .error (.lifecycleServerError status)
  else if 400 ≤ status then .error (.httpError status)
  else .error .lifecycleAwaitError

/-- One full request attempt: `_execute_http_request` followed by
`_handle_response`, with transport-level failures classified as in
`_execute_http_request` / `_handle_connector_error`. -/
def attempt_result : Attempt → Except WErr Json
  | .timeout => .error .timeoutError
  | .network => .error .networkError
  | .reply status body => handle_response status body

/-- Retry count of `WLEDJSONAPIClient` in simple (compatibility) mode,
`self._max_retries = 3`. -/
def simpleMaxRetries : Nat := 3

/-- The loop body of `WLEDJSONAPIClient._request_with_simple_retry`:
`i` is the index of the current attempt, the second argument the number
of retries still allowed after it.  A successful attempt returns its
result; a connection-family failure (the `except` tuple lists
`WLEDConnectionError` and its subclasses) is retried while retries
remain and re-raised as the last exception once they are exhausted; any
other exception is wrapped into a generic `WLEDConnectionError` and
raised immediately without retrying. -/
def request_with_simple_retry_aux (att : Nat → Attempt) : Nat → Nat → Nat × Except WErr Json
  | i, 0 =>
    match attempt_result (att i) with
    | .ok v => (i + 1, .ok v)
    | .error e =>
      if isConnectionFamily e then (i + 1, .error e)
      else (i + 1, .error (.connectionWrap e))
  | i, r + 1 =>
    match attempt_result (att i) with
    | .ok v => (i + 1, .ok v)
    | .error e =>
      if isConnectionFamily e then request_with_simple_retry_aux att (i + 1) r
      else (i + 1, .error (.connectionWrap e))

/-- `WLEDJSONAPIClient._request_with_simple_retry`: up to
`simpleMaxRetries + 1` attempts; returns the number of transport
invocations together with the outcome. -/
def request_with_simple_retry (att : Nat → Attempt) : Nat × Except WErr Json :=
  request_with_simple_retry_aux att 0 simpleMaxRetries

/-- `WLEDJSONAPIClient._request_with_enhanced_retry`: a single attempt
whose WLED exceptions are re-raised unchanged; there is no retry loop
in this path. -/
def request_with_enhanced_retry (att : Nat → Attempt) : Nat × Except WErr Json :=
  (1, attempt_result (att 0))

/-- `WLEDJSONAPIClient._request`: dispatch on `use_simple_client`. -/
def request (simpleMode : Bool) (att : Nat → Attempt) : Nat × Except WErr Json :=
  if simpleMode then request_with_simple_retry att
  else request_with_enhanced_retry att

/-- The validity gate of `WLEDJSONAPIClient.update_state`, Python
`isinstance(state, dict) and state`: a dict that is non-empty. -/
def isNonemptyObj : Json → Bool
  | .obj (_ :: _) => true
  | _ => false

/-- `WLEDJSONAPIClient.update_state`: reject an empty or non-mapping
command with `WLEDInvalidCommandError` before any network call;
otherwise POST via `_request`, raise `WLEDInvalidStateError` when the
result is not a mapping, re-raise `WLEDConnectionError`,
`WLEDInvalidResponseError` and `WLEDCommandError` families unchanged,
and wrap anything else into a `WLEDCommandError`. -/
def update_state (simpleMode : Bool) (cmd : Json) (att : Nat → Attempt) :
    Nat × Except WErr Json :=
  if isNonemptyObj cmd then
    let res := request simpleMode att
    match res.2 with
    | .ok (.obj kvs) => (res.1, .ok (.obj kvs))
    | .ok _ => (res.1, .error .invalidState)
    | .error e =>
      if isConnectionFamily e || isInvalidResponseFamily e || isCommandFamily e then
        (res.1, .error e)
      else (res.1, .error .commandError)
  else (0, .error .invalidCommand)

/-- `WLEDJSONAPIClient.get_full_state`: GET via `_request`, raise
`WLEDInvalidStateError` when the result is not a mapping, re-raise
`WLEDConnectionError` and `WLEDInvalidResponseError` families
unchanged, and wrap anything else into a `WLEDConnectionError`. -/
def get_full_state (simpleMode : Bool) (att : Nat → Attempt) :
    Nat × Except WErr Json :=
  let res := request simpleMode att
  match res.2 with
  | .ok (.obj kvs) => (res.1, .ok (.obj kvs))
  | .ok _ => (res.1, .error .invalidState)
  | .error e =>
    if isConnectionFamily e || isInvalidResponseFamily e then (res.1, .error e)
    else (res.1, .error (.connectionWrap e))

/-- `models.WLEDPreset`, as produced by `WLEDPreset.from_dict`: the
name is the `n` field or the string `Preset <id>`, the state a copy of
the entry. -/
structure WLEDPreset where
  id : Int
  name : Json
  state : List (String × Json)

/-- `models.WLEDPlaylist`, as produced by `WLEDPlaylist.from_dict`;
`repeatCount` embeds the source field `repeat`. -/
structure WLEDPlaylist where
  id : Int
  name : Json
  presets : Json
  durations : Json
  transitions : Json
  repeatCount : Json
  shuffle : Json

/-- A crash of the Python interpreter level that no handler in
`WLEDPresetsData.from_dict` catches (`TypeError` from `in` on a
non-container, `AttributeError` from `.get` on a non-dict); only
`ValueError` and `KeyError` are caught there. -/
inductive PyCrash where
  | typeOrAttributeError
  deriving DecidableEq

/-- Python `"playlist" in value` for a JSON value: key containment for
a dict, substring containment for a string, element equality for a
list; for `None`, booleans and numbers the `in` operator raises
`TypeError`. -/
def containsPlaylistKey : Json → Except PyCrash Bool
  | .obj kvs => .ok (hasKey kvs "playlist")
  | .str s => .ok ((s.splitOn "playlist").length > 1)
  | .arr xs => .ok (xs.any fun v => match v with | .str s => s = "playlist" | _ => false)
  | _ => .error .typeOrAttributeError

/-- `models.WLEDPreset.from_dict`.  On a non-dict entry value,
`data.get` raises `AttributeError` (uncaught by the caller, which
catches only `ValueError`/`KeyError`).  `int(preset_id)` cannot fail
here because the caller only passes keys that satisfy `isdigit`. -/
def preset_from_dict (key : String) (data : Json) : Except PyCrash WLEDPreset :=
  match data with
  | .obj kvs =>
    .ok ⟨Int.ofNat (digitsToNat key), (getKey kvs "n").getD (.str ("Preset " ++ key)), kvs⟩
  | _ => .error .typeOrAttributeError

/-- `models.WLEDPlaylist.from_dict`.  `data.get` / `playlist_data.get`
raise `AttributeError` when the receiver is not a dict; defaults are
`[]` for `ps`/`dur`/`transition`, `0` for `repeat`, `False` for
`shuffle`. -/
def playlist_from_dict (key : String) (data : Json) : Except PyCrash WLEDPlaylist :=
  match data with
  | .obj kvs =>
    match (getKey kvs "playlist").getD (.obj []) with
    | .obj pkvs =>
      .ok ⟨Int.ofNat (digitsToNat key),
           (getKey kvs "n").getD (.str ("Playlist " ++ key)),
           (getKey pkvs "ps").getD (.arr []),
           (getKey pkvs "dur").getD (.arr []),
           (getKey pkvs "transition").getD (.arr []),
           (getKey pkvs "repeat").getD (.num 0),
           (getKey pkvs "shuffle").getD (.bool false)⟩
    | _ => .error .typeOrAttributeError
  | _ => .error .typeOrAttributeError

/-- The loop of `models.WLEDPresetsData.from_dict`, processing entries
in insertion order with the preset and playlist accumulator dicts.
Keys that fail `isdigit` are skipped; an entry is routed to the
playlist branch exactly when `"playlist" in value`; crashes of the
membership test or of the per-entry constructors propagate (the
`except (ValueError, KeyError)` clauses never fire in this model, since
`int` on a digit key cannot fail). -/
def presets_data_from_dict_aux :
    List (String × Json) → List (Int × WLEDPreset) → List (Int × WLEDPlaylist) →
    Except PyCrash (List (Int × WLEDPreset) × List (Int × WLEDPlaylist))
  | [], ps, pls => .ok (ps, pls)
  | (k, v) :: rest, ps, pls =>
    if isDigitString k then
      match containsPlaylistKey v with
      | .error c => .error c
      | .ok true =>
        match playlist_from_dict k v with
        | .ok pl => presets_data_from_dict_aux rest ps (setIntKey pls pl.id pl)
        | .error c => .error c
      | .ok false =>
        match preset_from_dict k v with
        | .ok p => presets_data_from_dict_aux rest (setIntKey ps p.id p) pls
        | .error c => .error c
    else presets_data_from_dict_aux rest ps pls

/-- `models.WLEDPresetsData.from_dict`. -/
def presets_data_from_dict (entries : List (String × Json)) :
    Except PyCrash (List (Int × WLEDPreset) × List (Int × WLEDPlaylist)) :=
  presets_data_from_dict_aux entries [] []

/-- `WLEDJSONAPIClient.get_presets`: GET `/presets.json` via
`_request`, raise `WLEDInvalidStateError` for a non-mapping result,
parse via `WLEDPresetsData.from_dict`, re-raise `WLEDConnectionError`
and `WLEDInvalidResponseError` families, and convert any parsing
failure (`ValueError` branch or the final catch-all) into
`WLEDPresetError`. -/
def get_presets (simpleMode : Bool) (att : Nat → Attempt) :
    Nat × Except WErr (List (Int × WLEDPreset) × List (Int × WLEDPlaylist)) :=
  let res := request simpleMode att
  match res.2 with
  | .ok (.obj kvs) =>
    match presets_data_from_dict kvs with
    | .ok pd => (res.1, .ok pd)
    | .error _ => (res.1, .error .presetError)
  | .ok _ => (res.1, .error .invalidState)
  | .error e =>
    if isConnectionFamily e || isInvalidResponseFamily e then (res.1, .error e)
    else (res.1, .error .presetError)

/-- Helper for the optional keys of `set_effect`: Python
`if x is not None: d[k] = x`. -/
def optIntEntry (k : String) (v : Option Int) : List (String × Json) :=
  match v with
  | some n => [(k, .num n)]
  | none => []

/-- The command payload built by `WLEDJSONAPIClient.set_effect`:
`state = {"seg": [{"fx": effect}]}` and then `sx`, `ix`, `pal` are
inserted into the single segment element, in that order, when the
corresponding argument is not `None`. -/
def set_effect_command (effect : Int) (speed intensity palette : Option Int) : Json :=
  .obj [("seg", .arr [.obj (("fx", Json.num effect) ::
    (optIntEntry "sx" speed ++ optIntEntry "ix" intensity ++ optIntEntry "pal" palette))])]

/-- The command payload built by
`WLEDJSONAPIDataCoordinator.async_set_effect` in `coordinator.py`,
which repeats the same construction before delegating to
`async_send_command`. -/
def coordinator_set_effect_command (effect : Int) (speed intensity palette : Option Int) : Json :=
  .obj [("seg", .arr [.obj (("fx", Json.num effect) ::
    (optIntEntry "sx" speed ++ optIntEntry "ix" intensity ++ optIntEntry "pal" palette))])]

/-- The command validity gate of
`WLEDJSONAPIDataCoordinator.async_send_command`: a command that is not
a non-empty dict raises `WLEDCommandError` before the client is
invoked. -/
def coordinator_command_gate (cmd : Json) : Option WErr :=
  if isNonemptyObj cmd then none else some .commandError

/-- The `_connection_state` string of the coordinator. -/
inductive ConnState where
  | unknown
  | connected
  | disconnected
  | error
  deriving DecidableEq

/-- The mutable poll-relevant state of `WLEDJSONAPIDataCoordinator`:
`_failed_polls`, `_available`, `_connection_state`, `_last_error`, and
the cached data the base `DataUpdateCoordinator` holds in
`self.data`. -/
structure CoordState where
  failedPolls : Nat
  availableFlag : Bool
  connState : ConnState
  lastError : Option WErr
  dataCache : Option Json

/-- The coordinator state right after `__init__`: counter 0, available,
connection state `unknown`, no error, no data yet. -/
def initCoordState : CoordState :=
  ⟨0, true, .unknown, none, none⟩

/-- `WLEDJSONAPIDataCoordinator._handle_error`: every branch sets
`_available = False` and `_connection_state = "error"` and stores the
error; every branch except the `WLEDAuthenticationError` one also
increments `_failed_polls`.  `MAX_FAILED_POLLS` only gates a log
message here. -/
def handle_error (st : CoordState) (e : WErr) : CoordState :=
  { st with
    availableFlag := false,
    connState := .error,
    failedPolls := if e = .authentication then st.failedPolls else st.failedPolls + 1,
    lastError := some e }

/-- `WLEDJSONAPIDataCoordinator._set_connection_state("connected")`:
sets `_available = True` and clears the stored error. -/
def set_connected (st : CoordState) : CoordState :=
  { st with connState := .connected, availableFlag := true, lastError := none }

/-- Membership in the first `except` tuple of `_async_update_data`:
`(WLEDTimeoutError, WLEDNetworkError, WLEDAuthenticationError,
WLEDInvalidResponseError, WLEDConnectionError)`. -/
def inUpdateTuple (e : WErr) : Bool :=
  isTimeoutOrNetwork e || e = .authentication ||
    isInvalidResponseFamily e || isConnectionFamily e

/-- Whether a poll failure is served from the cache when one exists:
inside the first `except` clause the cache is returned only for
`(WLEDTimeoutError, WLEDNetworkError, WLEDInvalidResponseError,
WLEDConnectionError)` — not for `WLEDAuthenticationError` — while the
final `except Exception` clause always returns the cache. -/
def staleServes (e : WErr) : Bool :=
  if inUpdateTuple e then
    isTimeoutOrNetwork e || isInvalidResponseFamily e || isConnectionFamily e
  else true

/-- `WLEDJSONAPIDataCoordinator._async_update_data`, with the outcome
of `get_full_state` abstracted as `poll`.  On success the failure
counter resets, the state becomes connected, and the returned document
replaces the cache.  On failure `_handle_error` runs first; then, for
cache-eligible failures with a warm cache, the cached document is
returned as the update result; otherwise `UpdateFailed` is raised
(modelled as re-raising the cause). -/
def async_update_data (st : CoordState) (poll : Except WErr Json) :
    CoordState × Except WErr Json :=
  match poll with
  | .ok d =>
    (({ set_connected { st with failedPolls := 0 } with dataCache := some d }), .ok d)
  | .error e =>
    let st1 := handle_error st e
    if staleServes e then
      match st.dataCache with
      | some d => (st1, .ok d)
      | none => (st1, .error e)
    else (st1, .error e)

/-- One transport attempt of the legacy client
(`custom_components/wled/api.py`): a timeout of the
`asyncio.timeout` block, an `aiohttp.ClientError` while connecting, or
an HTTP reply whose body either fails JSON parsing or parses. -/
inductive LAttempt where
  | timeout
  | clientError
  | reply (status : Nat) (body : Body)

/-- The wrapped `WLEDConnectionError` kinds the legacy `_request`
raises once retries are exhausted, one per `except` branch: timeout,
connection error (`ClientError`, which includes the
`ClientResponseError` of `raise_for_status` on any status `>= 400`),
or unexpected error (for example `json.JSONDecodeError`). -/
inductive LReqErr where
  | timeoutConnectionError
  | clientConnectionError
  | unexpectedConnectionError
  deriving DecidableEq

/-- One attempt of the legacy `_request` body: `raise_for_status`
turns any status `>= 400` into a `ClientResponseError` (a
`ClientError`), a parse failure of `response.json()` lands in the
catch-all branch, and an empty body is likewise a parse failure for
`json` (`json.JSONDecodeError` on empty input). -/
def legacy_attempt_result : LAttempt → Except LReqErr Json
  | .timeout => .error .timeoutConnectionError
  | .clientError => .error .clientConnectionError
  | .reply status body =>
    if 400 ≤ status then .error .clientConnectionError
    else
      match body with
      | .empty => .error .unexpectedConnectionError
      | .malformed => .error .unexpectedConnectionError
      | .parsed j => .ok j

/-- Legacy retry count, `const.MAX_RETRIES = 5`. -/
def legacyMaxRetries : Nat := 5

/-- The loop of the legacy `WLEDAPIClient._request`: every failure kind
is retried (each `except` branch re-raises only when
`attempt == retries`), with exponential backoff between attempts
(timing is not observable here). -/
def legacy_request_aux (att : Nat → LAttempt) : Nat → Nat → Nat × Except LReqErr Json
  | i, 0 =>
    match legacy_attempt_result (att i) with
    | .ok v => (i + 1, .ok v)
    | .error e => (i + 1, .error e)
  | i, r + 1 =>
    match legacy_attempt_result (att i) with
    | .ok v => (i + 1, .ok v)
    | .error _ => legacy_request_aux att (i + 1) r

/-- The legacy `WLEDAPIClient._request` with the default
`retries = MAX_RETRIES`. -/
def legacy_request (att : Nat → LAttempt) : Nat × Except LReqErr Json :=
  legacy_request_aux att 0 legacyMaxRetries

/-- The mutable state of the legacy `WLEDDataCoordinator`:
`_failed_polls`, `_available`, and the cached `self.data`. -/
structure LCoordState where
  failedPolls : Nat
  availableFlag : Bool
  dataCache : Option Json

/-- The legacy coordinator state after `__init__`. -/
def initLCoordState : LCoordState :=
  ⟨0, true, none⟩

/-- The legacy `WLEDDataCoordinator._async_update_data`, with the poll
outcome abstracted (`.error ()` for any of the caught exception
classes — both `except` branches behave identically on the modelled
state).  On success the counter resets and availability is restored;
on failure the counter increments and availability is cleared only
once the counter has reached 3; the cache, when warm, is returned in
place of the failure. -/
def legacy_update (st : LCoordState) (poll : Except Unit Json) :
    LCoordState × Except Unit Json :=
  match poll with
  | .ok d => (⟨0, true, some d⟩, .ok d)
  | .error e =>
    let f := st.failedPolls + 1
    let avail := if 3 ≤ f && st.availableFlag then false else st.availableFlag
    match st.dataCache with
    | some d => (⟨f, avail, some d⟩, .ok d)
    | none => (⟨f, avail, none⟩, .error e)

/-- Iterated failing polls against the legacy coordinator, starting
from the freshly initialised state. -/
def legacy_fail_iter : Nat → LCoordState
  | 0 => initLCoordState
  | k + 1 => (legacy_update (legacy_fail_iter k) (.error ())).1

/-- Spec-side reading of a usable `seg` list: `seg` maps to a
non-empty list whose first element is an object carrying at least one
of `on`, `bri`, `fx`. -/
def usableSeg (kvs : List (String × Json)) : Bool :=
  match getKey kvs "seg" with
  | some (.arr (first :: _)) =>
    match first with
    | .obj fkvs => hasKey fkvs "on" || hasKey fkvs "bri" || hasKey fkvs "fx"
    | _ => false
  | _ => false

/-- Spec-side reading of the extraction trigger: the document carries
at least one of the keys `on`, `bri`, `ps`, `pl`, or a usable `seg`
list. -/
def hasEssentialContent (kvs : List (String × Json)) : Bool :=
  hasKey kvs "on" || hasKey kvs "bri" || hasKey kvs "ps" || hasKey kvs "pl" || usableSeg kvs

/-- Accessor for the key list of the first (and only) segment element
of a `set_effect` command payload. -/
def segFirstKeys : Json → List String
  | .obj [("seg", .arr (first :: _))] =>
    match first with
    | .obj fkvs => fkvs.map Prod.fst
    | _ => []
  | _ => []

/-- A copied entry is absent exactly when the key is absent. -/
theorem optEntryJ_eq_nil (kvs : List (String × Json)) (k : String) :
    optEntryJ kvs k = [] ↔ hasKey kvs k = false := by
  unfold optEntryJ hasKey
  cases getKey kvs k <;> simp

/-- The per-segment extraction is empty exactly when the first segment
carries none of `on`, `bri`, `fx`. -/
theorem extract_seg_essential_eq_nil (fkvs : List (String × Json)) :
    extract_seg_essential fkvs = [] ↔
      (hasKey fkvs "on" || hasKey fkvs "bri" || hasKey fkvs "fx") = false := by
  unfold extract_seg_essential
  simp [List.append_eq_nil, optEntryJ_eq_nil, Bool.or_eq_false_iff, and_assoc]

/-- The full extraction is empty exactly when the document has no
essential content. -/
theorem extract_essential_eq_nil (kvs : List (String × Json)) :
    extract_essential_state_fields kvs = [] ↔ hasEssentialContent kvs = false := by
  have hseg : (match getKey kvs "seg" with
      | some (.arr (first :: _)) =>
        match first with
        | .obj fkvs =>
          let segEss := extract_seg_essential fkvs
          if segEss.isEmpty then ([] : List (String × Json)) else [("seg", .arr [.obj segEss])]
        | _ => []
      | _ => []) = [] ↔ usableSeg kvs = false := by
    unfold usableSeg
    cases hk : getKey kvs "seg" with
    | none => simp
    | some j =>
      cases j with
      | arr elems =>
        cases elems with
        | nil => simp
        | cons first rest =>
          cases first with
          | obj fkvs =>
            cases hIE : (extract_seg_essential fkvs).isEmpty with
            | true =>
              have hE : extract_seg_essential fkvs = [] := by
                simpa [List.isEmpty_iff] using hIE
              simp [hIE, (extract_seg_essential_eq_nil fkvs).mp hE]
            | false =>
              have hE : ¬ extract_seg_essential fkvs = [] := by
                simpa [List.isEmpty_iff] using hIE
              have htrio : ¬ (hasKey fkvs "on" || hasKey fkvs "bri" || hasKey fkvs "fx") = false :=
                fun hc => hE ((extract_seg_essential_eq_nil fkvs).mpr hc)
              simp [hIE, htrio]
          | null => simp
          | bool b => simp
          | num n => simp
          | str s => simp
          | arr xs => simp
      | null => simp
      | bool b => simp
      | num n => simp
      | str s => simp
      | obj o => simp
  unfold extract_essential_state_fields hasEssentialContent
  simp only [List.append_eq_nil, optEntryJ_eq_nil, Bool.or_eq_false_iff, hseg]

/-- Exhausting the simple retry loop: when every attempt fails with the
same connection-family error, the loop makes one attempt per allowed
try and re-raises that error. -/
theorem simple_retry_aux_persistent (att : Nat → Attempt) (e : WErr)
    (hfam : isConnectionFamily e = true)
    (h : ∀ j, attempt_result (att j) = .error e) :
    ∀ r i, request_with_simple_retry_aux att i r = (i + r + 1, .error e) := by
  intro r
  induction r with
  | zero =>
    intro i
    simp [request_with_simple_retry_aux, h i, hfam]
  | succ r ih =>
    intro i
    simp only [request_with_simple_retry_aux, h i, hfam, if_true]
    rw [ih (i + 1)]
    congr 1
    omega

/-- Recovery in the simple retry loop: `n` connection-family failures
followed by a success give the success result after exactly `n + 1`
attempts, provided `n` does not exceed the remaining retry budget. -/
theorem simple_retry_aux_recovers (att : Nat → Attempt) (v : Json) :
    ∀ n i r, n ≤ r →
      (∀ j, j < n → ∃ e, attempt_result (att (i + j)) = .error e ∧ isConnectionFamily e = true) →
      attempt_result (att (i + n)) = .ok v →
      request_with_simple_retry_aux att i r = (i + n + 1, .ok v) := by
  intro n
  induction n with
  | zero =>
    intro i r _ _ hok
    have hok0 : attempt_result (att i) = .ok v := by simpa using hok
    cases r <;> simp [request_with_simple_retry_aux, hok0]
  | succ n ih =>
    intro i r hle hfail hok
    obtain ⟨e, he, hef⟩ := hfail 0 (Nat.succ_pos n)
    have he0 : attempt_result (att i) = .error e := by simpa using he
    cases r with
    | zero => omega
    | succ r =>
      simp only [request_with_simple_retry_aux, he0, hef, if_true]
      have hfail2 : ∀ j, j < n →
          ∃ e2, attempt_result (att (i + 1 + j)) = .error e2 ∧ isConnectionFamily e2 = true := by
        intro j hj
        obtain ⟨e2, h1, h2⟩ := hfail (j + 1) (by omega)
        refine ⟨e2, ?_, h2⟩
        rwa [show i + (j + 1) = i + 1 + j by omega] at h1
      have hok2 : attempt_result (att (i + 1 + n)) = .ok v := by
        rwa [show i + (n + 1) = i + 1 + n by omega] at hok
      rw [ih (i + 1) r (by omega) hfail2 hok2]
      congr 1
      omega

/-- A non-connection-family failure aborts the simple retry loop at
once: one attempt, wrapped into a generic connection error. -/
theorem simple_retry_aux_nonretryable (att : Nat → Attempt) (e : WErr) (i r : Nat)
    (h : attempt_result (att i) = .error e) (hfam : isConnectionFamily e = false) :
    request_with_simple_retry_aux att i r = (i + 1, .error (.connectionWrap e)) := by
  cases r <;> simp [request_with_simple_retry_aux, h, hfam]

/-- Exhausting the legacy retry loop: every failure kind is retried,
and once the budget is spent the last error is raised. -/
theorem legacy_request_aux_persistent (att : Nat → LAttempt) (e : LReqErr)
    (h : ∀ j, legacy_attempt_result (att j) = .error e) :
    ∀ r i, legacy_request_aux att i r = (i + r + 1, .error e) := by
  intro r
  induction r with
  | zero =>
    intro i
    simp [legacy_request_aux, h i]
  | succ r ih =>
    intro i
    simp only [legacy_request_aux, h i]
    rw [ih (i + 1)]
    congr 1
    omega

/-- Recovery in the legacy retry loop: `n` failures of any kind
followed by a success give the success result after exactly `n + 1`
attempts, provided `n` does not exceed the remaining retry budget. -/
theorem legacy_request_aux_recovers (att : Nat → LAttempt) (v : Json) :
    ∀ n i r, n ≤ r →
      (∀ j, j < n → ∃ e, legacy_attempt_result (att (i + j)) = .error e) →
      legacy_attempt_result (att (i + n)) = .ok v →
      legacy_request_aux att i r = (i + n + 1, .ok v) := by
  intro n
  induction n with
  | zero =>
    intro i r _ _ hok
    have hok0 : legacy_attempt_result (att i) = .ok v := by simpa using hok
    cases r <;> simp [legacy_request_aux, hok0]
  | succ n ih =>
    intro i r hle hfail hok
    obtain ⟨e, he⟩ := hfail 0 (Nat.succ_pos n)
    have he0 : legacy_attempt_result (att i) = .error e := by simpa using he
    cases r with
    | zero => omega
    | succ r =>
      simp only [legacy_request_aux, he0]
      have hfail2 : ∀ j, j < n → ∃ e2, legacy_attempt_result (att (i + 1 + j)) = .error e2 := by
        intro j hj
        obtain ⟨e2, h1⟩ := hfail (j + 1) (by omega)
        refine ⟨e2, ?_⟩
        rwa [show i + (j + 1) = i + 1 + j by omega] at h1
      have hok2 : legacy_attempt_result (att (i + 1 + n)) = .ok v := by
        rwa [show i + (n + 1) = i + 1 + n by omega] at hok
      rw [ih (i + 1) r (by omega) hfail2 hok2]
      congr 1
      omega

/-- A failing poll leaves the coordinator in the `_handle_error` state
regardless of whether the cache is served. -/
theorem async_update_data_error_fst (st : CoordState) (e : WErr) :
    (async_update_data st (.error e)).1 = handle_error st e := by
  simp only [async_update_data]
  by_cases hss : staleServes e
  · cases hc : st.dataCache <;> simp [hss, hc]
  · simp [hss]

/-- Closed form of the legacy coordinator state after `k` consecutive
failing polls from the initial state: the counter holds `k`, the
availability flag holds until the counter reaches 3, and no cache ever
appears. -/
theorem legacy_fail_iter_spec (k : Nat) :
    legacy_fail_iter k = ⟨k, decide (k < 3), none⟩ := by
  induction k with
  | zero => rfl
  | succ k ih =>
    simp only [legacy_fail_iter, ih, legacy_update]
    by_cases hk : k < 3
    · by_cases hk1 : k + 1 < 3
      · have h3 : ¬ 3 ≤ k + 1 := by omega
        simp [hk, hk1, h3]
      · have h3 : 3 ≤ k + 1 := by omega
        simp [hk, hk1, h3]
    · have hk1 : ¬ k + 1 < 3 := by omega
      simp [hk, hk1]

/-- Entries copied by `optEntryJ` only ever use the key they were
copied under. -/
theorem optEntryJ_keys (kvs : List (String × Json)) (k : String) (names : List String)
    (h : names.contains k = true) :
    (optEntryJ kvs k).all (fun kv => names.contains kv.1) = true := by
  unfold optEntryJ
  cases getKey kvs k with
  | none => simp
  | some v => simpa using h

/-- C1.  The claim promises that the retry policy retries
Timeout/Network failures up to `max_retries` times in every mode
(5 in standard mode, 3 in compatibility mode) and then returns the
success result.  On the failing input where the first attempt times
out and the next reply would be a well-formed success, the JSON-API
client fails in both modes: the standard-mode path
`_request_with_enhanced_retry` contains no retry loop, so it makes
exactly one transport invocation and re-raises the timeout (first
conjunct); the compatibility-mode loop does retry, but the would-be
success reply itself raises a `WLEDConnectionLifecycleError` (the
`await` of the synchronous status validator's `None` return), so all
4 attempts are consumed and that error is raised (second conjunct).
Only the legacy client recovers as the claim demands, returning the
parsed document after 2 invocations (third conjunct). -/
theorem claim1_enhanced_mode_single_attempt :
    request false (fun i => if i = 0 then .timeout else .reply 200 (.parsed (.obj [("on", Json.bool true)]))) =
      (1, .error .timeoutError) ∧
    request true (fun i => if i = 0 then .timeout else .reply 200 (.parsed (.obj [("on", Json.bool true)]))) =
      (4, .error .lifecycleAwaitError) ∧
    legacy_request (fun i => if i = 0 then .timeout else .reply 200 (.parsed (.obj [("on", Json.bool true)]))) =
      (2, .ok (.obj [("on", Json.bool true)])) :=
  ⟨rfl, rfl, rfl⟩

/-- C2, counterexample.  The claim says an HTTP 4xx failure is never
retried and the transport is invoked exactly once for it.  In
compatibility mode a persistent HTTP 404 reply is retried like a
connection failure: the transport is invoked 4 times, not once,
because `_validate_response_status` raises `WLEDHTTPError`, which is a
subclass of `WLEDConnectionError` and therefore sits in the retry
loop's `except` tuple. -/
theorem claim2_counterexample_http4xx_retried :
    request_with_simple_retry (fun _ => .reply 404 (.parsed .null)) = (4, .error (.httpError 404)) ∧
    (request_with_simple_retry (fun _ => .reply 404 (.parsed .null))).1 ≠ 1 :=
  ⟨rfl, by decide⟩

/-- C2, amended.  The simple (compatibility-mode) retry loop retries
every connection-family failure, and every failure an attempt can
produce is in that family: a persistent HTTP 4xx reply consumes all
`max_retries + 1 = 4` attempts and then raises the HTTP error, and any
persistent reply whose status passes validation — its body, empty,
malformed or well-formed alike, is never read, because status
validation raises a `WLEDConnectionLifecycleError` first — likewise
consumes all 4 attempts; no failure is ever settled with a single
transport invocation.  The legacy client retries every failure kind,
including HTTP 4xx and JSON-parse failures, for 6 attempts. -/
theorem claim2_amended_retry_classes (status status2 : Nat)
    (h4 : 400 ≤ status) (h5 : status < 500) (hs2 : status2 < 400)
    (b b2 : Body) (att attS : Nat → Attempt) (attL attLJ : Nat → LAttempt)
    (hatt : ∀ i, att i = .reply status b)
    (hattS : ∀ i, attS i = .reply status2 b2)
    (hattL : ∀ i, attL i = .reply status b)
    (hattLJ : ∀ i, attLJ i = .reply 200 .malformed) :
    request_with_simple_retry att = (4, .error (.httpError status)) ∧
    request_with_simple_retry attS = (4, .error .lifecycleAwaitError) ∧
    legacy_request attL = (6, .error .clientConnectionError) ∧
    legacy_request attLJ = (6, .error .unexpectedConnectionError) := by
  have h500 : ¬ 500 ≤ status := by omega
  refine ⟨?_, ?_, ?_, ?_⟩
  · have hres : ∀ j, attempt_result (att j) = .error (.httpError status) := by
      intro j
      rw [hatt j]
      simp [attempt_result, handle_response, h500, h4]
    simpa using simple_retry_aux_persistent att (.httpError status) rfl hres simpleMaxRetries 0
  · have hres : ∀ j, attempt_result (attS j) = .error .lifecycleAwaitError := by
      intro j
      rw [hattS j]
      simp [attempt_result, handle_response, show ¬ 500 ≤ status2 by omega,
        show ¬ 400 ≤ status2 by omega]
    simpa using simple_retry_aux_persistent attS .lifecycleAwaitError rfl hres simpleMaxRetries 0
  · have hres : ∀ j, legacy_attempt_result (attL j) = .error .clientConnectionError := by
      intro j
      rw [hattL j]
      simp [legacy_attempt_result, h4]
    simpa using legacy_request_aux_persistent attL .clientConnectionError hres legacyMaxRetries 0
  · have hres : ∀ j, legacy_attempt_result (attLJ j) = .error .unexpectedConnectionError := by
      intro j
      rw [hattLJ j]
      rfl
    simpa using legacy_request_aux_persistent attLJ .unexpectedConnectionError hres legacyMaxRetries 0

/-- Witness for the amended C2 at concrete attempt sequences: a
persistent 404 and a persistent empty-body 200 in compatibility mode,
plus the legacy client on a persistent 404 and a persistent malformed
body. -/
theorem claim2_amended_witness :
    request_with_simple_retry (fun _ => .reply 404 (.parsed (.str "x"))) = (4, .error (.httpError 404)) ∧
    request_with_simple_retry (fun _ => .reply 200 .empty) = (4, .error .lifecycleAwaitError) ∧
    legacy_request (fun _ => .reply 404 (.parsed (.str "x"))) = (6, .error .clientConnectionError) ∧
    legacy_request (fun _ => .reply 200 .malformed) = (6, .error .unexpectedConnectionError) :=
  claim2_amended_retry_classes 404 200 (by omega) (by omega) (by omega)
    (.parsed (.str "x")) .empty
    (fun _ => .reply 404 (.parsed (.str "x"))) (fun _ => .reply 200 .empty)
    (fun _ => .reply 404 (.parsed (.str "x"))) (fun _ => .reply 200 .malformed)
    (fun _ => rfl) (fun _ => rfl) (fun _ => rfl) (fun _ => rfl)

/-- C3.  The claim says `update_state` compares the expected command
against the response and raises `CommandError` when a critical field
(`on`, `bri`) mismatches, while a non-critical mismatch succeeds and
returns the response.  The code contains no comparison of command
against response at all, and at the claim's own failing input —
command turning the light on, response reporting it off — it does not
even return the response: the 200 reply raises a
`WLEDConnectionLifecycleError` from status validation (the `await` of
the synchronous validator's `None`), re-raised by `update_state` as a
connection-family error after 1 standard-mode invocation (first
conjunct) and 4 compatibility-mode invocations (second conjunct);
never a `WLEDCommandError`.  The non-critical-mismatch response
produces the identical outcome (third conjunct): critical and
non-critical fields are treated no differently because nothing is
validated. -/
theorem claim3_critical_mismatch_not_raised :
    update_state false (Json.obj [("on", Json.bool true), ("bri", Json.num 128)])
        (fun _ => .reply 200 (.parsed (.obj [("on", Json.bool false), ("bri", Json.num 128)]))) =
      (1, .error .lifecycleAwaitError) ∧
    update_state true (Json.obj [("on", Json.bool true), ("bri", Json.num 128)])
        (fun _ => .reply 200 (.parsed (.obj [("on", Json.bool false), ("bri", Json.num 128)]))) =
      (4, .error .lifecycleAwaitError) ∧
    update_state false (Json.obj [("on", Json.bool true), ("bri", Json.num 128)])
        (fun _ => .reply 200 (.parsed (.obj [("on", Json.bool true), ("bri", Json.num 127)]))) =
      (1, .error .lifecycleAwaitError) :=
  ⟨rfl, rfl, rfl⟩

/-- C4.  A poll failure of the countable Timeout/Network class is
absorbed by the cache when one exists: the coordinator returns the
cached document unchanged (and only mutates its failure-tracking
state), and propagates the failure only when no cache exists yet.  The
legacy coordinator behaves the same way for its caught failures. -/
theorem claim4_stale_cache_on_countable_failure (st : CoordState) (e : WErr)
    (htn : isTimeoutOrNetwork e = true) :
    (∀ d, st.dataCache = some d → async_update_data st (.error e) = (handle_error st e, .ok d)) ∧
    (st.dataCache = none → async_update_data st (.error e) = (handle_error st e, .error e)) ∧
    (∀ (lst : LCoordState) (d : Json), lst.dataCache = some d →
      (legacy_update lst (.error ())).2 = .ok d) ∧
    (∀ lst : LCoordState, lst.dataCache = none →
      (legacy_update lst (.error ())).2 = .error ()) := by
  have hss : staleServes e = true := by
    cases e <;> simp_all [isTimeoutOrNetwork, staleServes, inUpdateTuple,
      isConnectionFamily, isInvalidResponseFamily]
  refine ⟨?_, ?_, ?_, ?_⟩
  · intro d hd
    simp [async_update_data, hss, hd]
  · intro hd
    simp [async_update_data, hss, hd]
  · intro lst d hd
    simp [legacy_update, hd]
  · intro lst hd
    simp [legacy_update, hd]

/-- Witness for C4: a timeout against a warm cache is absorbed, a
network failure against a cold cache propagates. -/
theorem claim4_witness :
    async_update_data { initCoordState with dataCache := some (Json.obj [("on", Json.bool true)]) }
        (.error .timeoutError) =
      (handle_error { initCoordState with dataCache := some (Json.obj [("on", Json.bool true)]) }
        .timeoutError, .ok (Json.obj [("on", Json.bool true)])) ∧
    async_update_data initCoordState (.error .networkError) =
      (handle_error initCoordState .networkError, .error .networkError) :=
  ⟨(claim4_stale_cache_on_countable_failure
      { initCoordState with dataCache := some (Json.obj [("on", Json.bool true)]) }
      .timeoutError rfl).1 _ rfl,
   (claim4_stale_cache_on_countable_failure initCoordState .networkError rfl).2.1 rfl⟩

/-- C5.  The claim says HTTP 401 is classified as
AuthenticationRequired, never increments the failure counter, and is
always propagated even with a warm cache.  In the code, a 401 reply is
raised as `WLEDHTTPError` — a `WLEDConnectionError` subclass — by
`_validate_response_status` (the 401-to-authentication mapping in
`_handle_response_error` is unreachable for response statuses): the
first two conjuncts show one standard-mode invocation and even 4
compatibility-mode invocations (the 401 is retried), and the third
shows the coordinator incrementing the counter and serving the stale
cache for it. -/
theorem claim5_http401_counted_and_stale_served :
    get_full_state false (fun _ => .reply 401 (.parsed (.obj []))) = (1, .error (.httpError 401)) ∧
    get_full_state true (fun _ => .reply 401 (.parsed (.obj []))) = (4, .error (.httpError 401)) ∧
    async_update_data ⟨0, true, .connected, none, some (Json.obj [("on", Json.bool true)])⟩
        (.error (.httpError 401)) =
      (⟨1, false, .error, some (.httpError 401), some (Json.obj [("on", Json.bool true)])⟩,
       .ok (Json.obj [("on", Json.bool true)])) :=
  ⟨rfl, rfl, rfl⟩

/-- C6, counterexample.  The claim says fewer than 3 consecutive
countable failures leave the entity available.  In the JSON-API
coordinator, the very first countable poll failure (a timeout from the
fresh initial state) already flips the availability flag to false while
the failure counter stands at 1: `MAX_FAILED_POLLS = 3` only gates a
log message in `_handle_error`. -/
theorem claim6_counterexample_first_failure_unavailable :
    (async_update_data initCoordState (.error .timeoutError)).1.failedPolls = 1 ∧
    (async_update_data initCoordState (.error .timeoutError)).1.availableFlag = false :=
  ⟨rfl, rfl⟩

/-- C6, amended.  In the JSON-API coordinator, the availability flag is
false after every failing poll (of any class) and true with the counter
reset after every successful poll — the threshold 3 plays no role in
it.  The legacy coordinator implements the claimed threshold
behaviour: after `k` consecutive failing polls from the initial state
the counter holds `k` and the entity is available exactly while
`k < 3`, and any successful poll resets the counter and restores
availability. -/
theorem claim6_amended_availability :
    (∀ (st : CoordState) (e : WErr), (async_update_data st (.error e)).1.availableFlag = false) ∧
    (∀ (st : CoordState) (d : Json),
      (async_update_data st (.ok d)).1.availableFlag = true ∧
      (async_update_data st (.ok d)).1.failedPolls = 0) ∧
    (∀ k : Nat, (legacy_fail_iter k).failedPolls = k ∧
      (legacy_fail_iter k).availableFlag = decide (k < 3)) ∧
    (∀ (lst : LCoordState) (d : Json), legacy_update lst (.ok d) = (⟨0, true, some d⟩, .ok d)) := by
  refine ⟨?_, ?_, ?_, ?_⟩
  · intro st e
    rw [async_update_data_error_fst]
    rfl
  · intro st d
    exact ⟨rfl, rfl⟩
  · intro k
    rw [legacy_fail_iter_spec]
    exact ⟨rfl, rfl⟩
  · intro lst d
    rfl

/-- C7.  A command that is not a non-empty mapping (the empty dict and
`None` included) is rejected before any network call: `update_state`
raises `WLEDInvalidCommandError` with zero transport invocations in
either client mode, and the coordinator's `async_send_command` gate
likewise raises `WLEDCommandError` before touching the client. -/
theorem claim7_invalid_command_no_transport (cmd : Json)
    (h : isNonemptyObj cmd = false) :
    (∀ (simpleMode : Bool) (att : Nat → Attempt),
      update_state simpleMode cmd att = (0, .error .invalidCommand)) ∧
    coordinator_command_gate cmd = some .commandError := by
  constructor
  · intro m att
    simp [update_state, h]
  · simp [coordinator_command_gate, h]

/-- Witness for C7 at the claim's own inputs: the empty dict and
`None` (Python `update_state({})` and `update_state(None)`). -/
theorem claim7_witness :
    update_state false (Json.obj []) (fun _ => .timeout) = (0, .error .invalidCommand) ∧
    update_state true Json.null (fun _ => .timeout) = (0, .error .invalidCommand) ∧
    coordinator_command_gate Json.null = some .commandError :=
  ⟨(claim7_invalid_command_no_transport (Json.obj []) rfl).1 false _,
   (claim7_invalid_command_no_transport Json.null rfl).1 true _,
   (claim7_invalid_command_no_transport Json.null rfl).2⟩

/-- C8.  `set_effect(5, speed=128, intensity=200, palette=3)` builds
exactly the nested single-segment payload the claim gives, the
coordinator's `async_set_effect` builds the identical payload, omitted
optional arguments contribute no key, and in general each of
`sx`/`ix`/`pal` is present in the segment element exactly when the
corresponding argument was supplied. -/
theorem claim8_set_effect_command_shape :
    set_effect_command 5 (some 128) (some 200) (some 3) =
      .obj [("seg", .arr [.obj [("fx", .num 5), ("sx", .num 128), ("ix", .num 200),
        ("pal", .num 3)]])] ∧
    (∀ e s i p, coordinator_set_effect_command e s i p = set_effect_command e s i p) ∧
    (∀ e, set_effect_command e none none none = .obj [("seg", .arr [.obj [("fx", .num e)]])]) ∧
    (∀ e s i p, segFirstKeys (set_effect_command e s i p) =
        "fx" :: ((if s.isSome then ["sx"] else []) ++ (if i.isSome then ["ix"] else []) ++
                 (if p.isSome then ["pal"] else []))) := by
  refine ⟨rfl, fun e s i p => rfl, fun e => rfl, fun e s i p => ?_⟩
  cases s <;> cases i <;> cases p <;> rfl

/-- C9, counterexample.  The claim says any entry that fails to parse
is skipped individually, with partial success and never total failure.
An entry whose value is not a mapping (here the number `7`) makes the
`"playlist" in value` membership test raise an uncaught `TypeError`,
so the whole parse fails and even the well-formed preset entry `1` is
lost (first conjunct); that entry parses fine on its own (second
conjunct). -/
theorem claim9_counterexample_total_failure :
    presets_data_from_dict [("1", Json.obj [("n", Json.str "A")]), ("2", Json.num 7)] =
      .error .typeOrAttributeError ∧
    presets_data_from_dict [("1", Json.obj [("n", Json.str "A")])] =
      .ok ([(1, ⟨1, .str "A", [("n", .str "A")]⟩)], []) :=
  ⟨rfl, rfl⟩

/-- C9, amended.  In the parser `WLEDPresetsData.from_dict`, entries
with a non-numeric key are skipped (first conjunct), and an entry
whose value is not a mapping raises an uncaught `TypeError` /
`AttributeError` that fails the whole parse instead of being skipped
(the counterexample); applied directly to the claim's cited document —
all of whose values are mappings — the parser yields exactly one
preset (id 1, name A) and one playlist (id 2, name B) (second
conjunct).  `get_presets` itself, however, can never reach the parser:
its 200 reply raises a `WLEDConnectionLifecycleError` from status
validation before the body is read, so the end-to-end call raises a
connection-family error after one standard-mode invocation (third
conjunct). -/
theorem claim9_amended_presets_parsing (k : String) (v : Json)
    (rest : List (String × Json)) (h : isDigitString k = false) :
    presets_data_from_dict ((k, v) :: rest) = presets_data_from_dict rest ∧
    presets_data_from_dict
      [("1", .obj [("n", .str "A")]),
       ("x", .obj [("n", .str "bad-key")]),
       ("2", .obj [("n", .str "B"),
         ("playlist", .obj [("ps", .arr [.num 1]), ("dur", .arr [.num 30]),
           ("transition", .arr [.num 5])])])] =
      .ok ([(1, ⟨1, .str "A", [("n", .str "A")]⟩)],
           [(2, ⟨2, .str "B", .arr [.num 1], .arr [.num 30], .arr [.num 5],
              .num 0, .bool false⟩)]) ∧
    get_presets false (fun _ => .reply 200 (.parsed (.obj
      [("1", .obj [("n", .str "A")]),
       ("x", .obj [("n", .str "bad-key")]),
       ("2", .obj [("n", .str "B"),
         ("playlist", .obj [("ps", .arr [.num 1]), ("dur", .arr [.num 30]),
           ("transition", .arr [.num 5])])])]))) =
      (1, .error .lifecycleAwaitError) := by
  refine ⟨?_, rfl, rfl⟩
  simp only [presets_data_from_dict, presets_data_from_dict_aux, h]
  simp

/-- Witness for the amended C9: the non-numeric key `x` is skipped by
the parser, the cited document parses to the claimed preset and
playlist, and the end-to-end `get_presets` call raises. -/
theorem claim9_witness :
    presets_data_from_dict [("x", Json.obj [("n", Json.str "bad-key")])] =
      presets_data_from_dict [] ∧
    presets_data_from_dict
      [("1", .obj [("n", .str "A")]),
       ("x", .obj [("n", .str "bad-key")]),
       ("2", .obj [("n", .str "B"),
         ("playlist", .obj [("ps", .arr [.num 1]), ("dur", .arr [.num 30]),
           ("transition", .arr [.num 5])])])] =
      .ok ([(1, ⟨1, .str "A", [("n", .str "A")]⟩)],
           [(2, ⟨2, .str "B", .arr [.num 1], .arr [.num 30], .arr [.num 5],
              .num 0, .bool false⟩)]) ∧
    get_presets false (fun _ => .reply 200 (.parsed (.obj
      [("1", .obj [("n", .str "A")]),
       ("x", .obj [("n", .str "bad-key")]),
       ("2", .obj [("n", .str "B"),
         ("playlist", .obj [("ps", .arr [.num 1]), ("dur", .arr [.num 30]),
           ("transition", .arr [.num 5])])])]))) =
      (1, .error .lifecycleAwaitError) :=
  ⟨(claim9_amended_presets_parsing "x" (Json.obj [("n", Json.str "bad-key")]) [] rfl).1,
   (claim9_amended_presets_parsing "x" (Json.obj [("n", Json.str "bad-key")]) [] rfl).2.1,
   (claim9_amended_presets_parsing "x" (Json.obj [("n", Json.str "bad-key")]) [] rfl).2.2⟩

/-- C10.  The claim describes the selection `_handle_response` and
`_extract_essential_state_fields` encode for parsed object responses:
reduce to `on`/`bri`/`ps`/`pl`/first-segment `seg` when essential
content is present, return the full document otherwise.  The handler
never reaches that code: every reply whose status passes validation
raises a `WLEDConnectionLifecycleError` from the `await` of the
synchronous status validator's `None` return (first conjunct,
regardless of body), so the public GET path raises instead of
returning a document (second conjunct).  The extraction function
itself, as written, does satisfy the claimed discipline: it is empty
exactly when the document has no essential content (third conjunct)
and uses no key outside `on`, `bri`, `ps`, `pl`, `seg` (fourth
conjunct). -/
theorem claim10_extraction_dead_code :
    (∀ body, handle_response 200 body = .error .lifecycleAwaitError) ∧
    (∀ kvs, get_full_state false (fun _ => .reply 200 (.parsed (.obj kvs))) =
        (1, .error .lifecycleAwaitError)) ∧
    (∀ kvs, (extract_essential_state_fields kvs = [] ↔
        hasEssentialContent kvs = false)) ∧
    (∀ kvs, (extract_essential_state_fields kvs).all
        (fun kv => ["on", "bri", "ps", "pl", "seg"].contains kv.1) = true) := by
  refine ⟨fun body => rfl, fun kvs => rfl, extract_essential_eq_nil, ?_⟩
  intro kvs
  unfold extract_essential_state_fields
  simp only [List.all_append, Bool.and_eq_true]
  refine ⟨⟨⟨⟨?_, ?_⟩, ?_⟩, ?_⟩, ?_⟩
  · exact optEntryJ_keys kvs "on" _ rfl
  · exact optEntryJ_keys kvs "bri" _ rfl
  · exact optEntryJ_keys kvs "ps" _ rfl
  · exact optEntryJ_keys kvs "pl" _ rfl
  · cases hk : getKey kvs "seg" with
    | none => rfl
    | some j =>
      cases j with
      | arr elems =>
        cases elems with
        | nil => rfl
        | cons first rest =>
          cases first with
          | obj fkvs =>
            cases hIE : (extract_seg_essential fkvs).isEmpty <;> simp [hIE]
          | null => rfl
          | bool b => rfl
          | num n => rfl
          | str s => rfl
          | arr xs => rfl
      | null => rfl
      | bool b => rfl
      | num n => rfl
      | str s => rfl
      | obj o => rfl

end WLED
